import Mathlib

/-!
Shallow embedding of the clario backend's document-validation and
project-store core (`app/models/spec.py`, `app/services/validation.py`,
`app/services/project.py`), together with theorems settling the spec
claims about it.

Conventions of the embedding:
* Python `str` is `String`; where character-level behaviour of Python
  string primitives matters (`str.split`, `int(...)` parsing) the
  primitive is re-implemented on `List Char` so that every definition
  evaluates by kernel reduction.
* Python `date` / timestamp values are carried as opaque `String`s
  (the code never computes on them except for formatting and the
  snapshot-filename timestamp check, which is modelled explicitly).
* Python `set` values are modelled as deduplicated lists; the
  arbitrary hash iteration order of a Python set is abstracted to
  first-occurrence order, and every claim about set-derived data is
  stated up to membership.
* `pydantic` is an external library: a raw JSON document is modelled
  by its validation outcome (`RawDoc`), either a parsed `ProjectSpec`
  or a list of schema errors.
-/

namespace Clario

/-! ## Data model (`app/models/spec.py`) -/

/-- Dates are carried as opaque ISO strings (`datetime.date` is only
ever stamped and serialized, never computed on). -/
abbrev Date := String

/-- `PriorityLevel(str, Enum)` from `models/spec.py`. -/
inductive PriorityLevel where
  | MVP | High | Medium | Low
deriving DecidableEq, Repr

/-- `ScenarioStatus(str, Enum)` from `models/spec.py`. -/
inductive ScenarioStatus where
  | Draft | InReview | Approved | Implemented | Deprecated
deriving DecidableEq, Repr

/-- `DocumentStatus(str, Enum)` from `models/spec.py`. -/
inductive DocumentStatus where
  | Draft | InReview | Active | Archived
deriving DecidableEq, Repr

/-- `DecisionStatus(str, Enum)` from `models/spec.py`. -/
inductive DecisionStatus where
  | Proposed | Accepted | Rejected
deriving DecidableEq, Repr

/-- `ReviewStatus(str, Enum)` from `models/spec.py`. -/
inductive ReviewStatus where
  | Pending | Approved | RejectedWithComments
deriving DecidableEq, Repr

/-- `Role(str, Enum)` from `models/spec.py`. -/
inductive Role where
  | ScopePlanner | Reviewer | Recorder | Promoter
deriving DecidableEq, Repr

/-- `EstimatedComplexity(str, Enum)` from `models/spec.py`. -/
inductive EstimatedComplexity where
  | Low | Medium | High
deriving DecidableEq, Repr

/-- `DecisionType(str, Enum)` from `models/spec.py`. -/
inductive DecisionType where
  | Feature | Scope | Technical | Process
deriving DecidableEq, Repr

/-- `CoreIdea` model. -/
structure CoreIdea where
  problem_statement : String
  target_audience : String
  core_value : String
deriving DecidableEq, Repr

/-- `Scope` model: `inScope` / `outOfScope` string lists. -/
structure Scope where
  in_scope : List String
  out_of_scope : List String
deriving DecidableEq, Repr

/-- `EndToEndFlow` model. -/
structure EndToEndFlow where
  title : Option String
  flow_text : Option String
  steps : List String
deriving DecidableEq, Repr

/-- `Story` model. -/
structure Story where
  user_type : String
  action : String
  benefit : String
deriving DecidableEq, Repr

/-- `Priority` model. -/
structure Priority where
  level : PriorityLevel
  justification : Option String
deriving DecidableEq, Repr

/-- `Scenario` model (`id` is optional in the schema). -/
structure Scenario where
  id : Option String
  name : String
  story : Story
  required_functions : List String
  acceptance_criteria : List String
  priority : Option Priority
  status : Option ScenarioStatus
  dependencies : List String
  estimated_complexity : Option EstimatedComplexity
deriving DecidableEq, Repr

/-- `Prioritization` model. -/
structure Prioritization where
  mvp : List String
  later : List String
  maybe : List String
  system : List String
deriving DecidableEq, Repr

/-- `DecisionImpact` model. -/
structure DecisionImpact where
  scope : Option (List String)
  scenarios : Option (List String)
deriving DecidableEq, Repr

/-- `DecisionLog` model. -/
structure DecisionLog where
  date : Date
  decision : String
  reason : Option String
  rejected_options : List String
  status : Option DecisionStatus
  impact : Option DecisionImpact
  decision_type : Option DecisionType
deriving DecidableEq, Repr

/-- `ChangeHistory` model: date, description, optional related paths. -/
structure ChangeHistory where
  date : Date
  change_text : String
  related : Option (List String)
deriving DecidableEq, Repr

/-- `NonFunctionalTarget` model. -/
structure NonFunctionalTarget where
  mode : String
  constraints : List String
deriving DecidableEq, Repr

/-- `NonFunctionalNote` model. -/
structure NonFunctionalNote where
  category : String
  note : String
  targets : Option (List NonFunctionalTarget)
deriving DecidableEq, Repr

/-- `PersistenceOption` model. -/
structure PersistenceOption where
  id : Option String
  title : Option String
  option_text : Option String
deriving DecidableEq, Repr

/-- `Persistence` model. -/
structure Persistence where
  persistence_text : Option String
  options : Option (List PersistenceOption)
deriving DecidableEq, Repr

/-- `InteractionSessionModel` model. -/
structure InteractionSessionModel where
  id : String
  name : String
  model_text : Option String
  core_concept : String
  multi_doc_handling : String
  persistence : Persistence
deriving DecidableEq, Repr

/-- `InteractionSessionModels` model. -/
structure InteractionSessionModels where
  title : Option String
  models : List InteractionSessionModel
deriving DecidableEq, Repr

/-- `ReviewHistory` model. -/
structure ReviewHistory where
  date : Date
  reviewer : Role
  status : ReviewStatus
  comments : Option String
deriving DecidableEq, Repr

/-- `Meta` model. -/
structure Meta where
  generated_by : List Role
  conversation_links : List String
  document_status : Option DocumentStatus
  tags : List String
  review_history : List ReviewHistory
deriving DecidableEq, Repr

/-- `ProjectSpec` model: the whole project specification document. -/
structure ProjectSpec where
  last_updated : Date
  spec_version : String
  core_idea : CoreIdea
  scope : Scope
  end_to_end_flow : Option EndToEndFlow
  scenarios : List Scenario
  prioritization : Option Prioritization
  decision_log : List DecisionLog
  change_history : List ChangeHistory
  non_functional_notes : List NonFunctionalNote
  interaction_session_models : Option InteractionSessionModels
  meta : Option Meta
deriving DecidableEq, Repr

/-! ## Validation service (`app/services/validation.py`) -/

/-- One entry of a `pydantic` `ValidationError.errors()` list, as
flattened by `validate_with_pydantic` (`field`, `message`, `type`;
the echoed `input` value is abstracted away). -/
structure SchemaError where
  field : String
  message : String
  error_type : String
deriving DecidableEq, Repr

/-- One entry of a `ValidationResult.errors` list.  The Python code
builds dicts with a `"type"` discriminator plus typed payload fields
(`overlapping_items`, `scenario_id`/`missing_dependency`,
`circular_scenarios`); these are modelled as constructors carrying
exactly those payloads.  The human-readable `"message"`/`"field"`
strings are presentation derived from the payload and are not
modelled separately. -/
inductive SpecError where
  | schema (e : SchemaError)
  | scope_overlap (overlapping_items : List String)
  | missing_dependency (scenario_id : String) (missing_dep : String)
  | circular_dependency (circular_scenarios : List String)
deriving DecidableEq, Repr

/-- `ValidationResult` from `services/validation.py`. -/
structure ValidationResult where
  is_valid : Bool
  errors : List SpecError
  warnings : List String
deriving DecidableEq, Repr

/-- A raw JSON document, modelled by its `pydantic`
(`ProjectSpec.model_validate`) outcome: either the parsed spec or
the list of schema errors `pydantic` reports. -/
inductive RawDoc where
  | valid (spec : ProjectSpec)
  | invalid (errors : List SchemaError)
deriving DecidableEq, Repr

/-- `ValidationService.validate_with_pydantic`: success yields an
empty result; a `pydantic` failure yields the flattened error list. -/
def validate_with_pydantic : RawDoc → ValidationResult
  | .valid _ => { is_valid := true, errors := [], warnings := [] }
  | .invalid errs =>
      { is_valid := false, errors := errs.map SpecError.schema, warnings := [] }

/-- Python `x or "unknown"` on the optional scenario id (both `None`
and the empty string are falsy). -/
def orUnknown : Option String → String
  | none => "unknown"
  | some s => if s = "" then "unknown" else s

/-- The `set(in_scope).intersection(set(out_of_scope))` of the scope
check, as a deduplicated list (hash order abstracted to
first-occurrence order). -/
def scope_overlap_items (sc : Scope) : List String :=
  sc.in_scope.dedup.filter (fun a => decide (a ∈ sc.out_of_scope))

/-- Scope-overlap rule of `validate_business_rules` (the Python guard
`if spec.scope:` is always true: `scope` is a required field and a
pydantic model instance is always truthy). -/
def scopeErrors (spec : ProjectSpec) : List SpecError :=
  let overlap := scope_overlap_items spec.scope
  if overlap ≠ [] then [.scope_overlap overlap] else []

/-- `{scenario.id for scenario in spec.scenarios}` restricted to the
non-`None` ids (a string dependency id can never equal `None`, so
membership tests against the Python set agree with this list). -/
def scenario_ids (spec : ProjectSpec) : List String :=
  spec.scenarios.filterMap (·.id)

/-- Dangling-dependency errors of one scenario against the given id
set. -/
def missingFor (ids : List String) (s : Scenario) : List SpecError :=
  s.dependencies.filterMap (fun dep =>
    if dep ∈ ids then none
    else some (.missing_dependency (orUnknown s.id) dep))

/-- Dangling-dependency rule of `validate_business_rules`. -/
def missingDependencyErrors (spec : ProjectSpec) : List SpecError :=
  if spec.scenarios ≠ [] then
    spec.scenarios.flatMap (missingFor (scenario_ids spec))
  else []

/-- Python dict assignment `d[k] = v`: overwrite in place if the key
is present, else append. -/
def dictInsert (l : List (String × List String)) (k : String) (v : List String) :
    List (String × List String) :=
  if l.any (·.1 = k) then l.map (fun p => if p.1 = k then (k, v) else p)
  else l ++ [(k, v)]

/-- Python dict lookup returning `None` on a missing key. -/
def dictGet (l : List (String × List String)) (k : String) : Option (List String) :=
  (l.find? (·.1 = k)).map (·.2)

/-- The `scenario_deps` dict comprehension: scenario id (skipping
`None` ids) mapped to `set(scenario.dependencies or [])` (the set is
the deduplicated list). -/
def scenario_deps (spec : ProjectSpec) : List (String × List String) :=
  spec.scenarios.foldl
    (fun acc s =>
      match s.id with
      | none => acc
      | some sid => dictInsert acc sid s.dependencies.dedup)
    []

/-- Circular-dependency rule of `validate_business_rules`: only runs
when there are at least two scenarios, and only reports direct mutual
pairs (`dep_id in scenario_deps and scenario_id in
scenario_deps[dep_id]`). -/
def circularDependencyErrors (spec : ProjectSpec) : List SpecError :=
  if spec.scenarios.length > 1 then
    let sd := scenario_deps spec
    sd.flatMap (fun p =>
      p.2.filterMap (fun dep =>
        match dictGet sd dep with
        | some ddeps =>
            if p.1 ∈ ddeps then some (.circular_dependency [p.1, dep]) else none
        | none => none))
  else []

/-- MVP-overload warning: `mvp_count > total_count * 0.5`.  Both
counts are small machine integers, so the float comparison is exactly
`2 * mvp_count > total_count`. -/
def mvpWarnings (spec : ProjectSpec) : List String :=
  if spec.scenarios ≠ [] then
    let mvp := (spec.scenarios.filter (fun s =>
      match s.priority with
      | some p => p.level = .MVP
      | none => false)).length
    let total := spec.scenarios.length
    if 2 * mvp > total then
      [s!"MVP场景过多 ({mvp}/{total})，建议重新评估优先级"]
    else []
  else []

/-- `ValidationService.validate_business_rules`: errors are collected
in source order (scope overlap, then dangling dependencies, then
circular dependencies); validity is emptiness of the error list. -/
def validate_business_rules (spec : ProjectSpec) : ValidationResult :=
  let errors := scopeErrors spec ++ missingDependencyErrors spec
    ++ circularDependencyErrors spec
  { is_valid := errors.isEmpty
    errors := errors
    warnings := mvpWarnings spec }

/-- `ValidationService.validate_full`: pydantic (schema) validation
first; on failure its result is returned unchanged, otherwise the
document is parsed and a result is built from the business-rule
result's fields. -/
def validate_full (data : RawDoc) : ValidationResult :=
  match data with
  | .invalid errs => validate_with_pydantic (.invalid errs)
  | .valid spec =>
      let business := validate_business_rules spec
      { is_valid := business.is_valid
        errors := business.errors
        warnings := business.warnings }

/-! ## Version compatibility (`is_version_compatible`) -/

/-- Python `str.split(sep)` for a one-character separator, character
level (`"".split('.') == [""]`, empty segments kept). -/
def pySplit (sep : Char) : List Char → List (List Char)
  | [] => [[]]
  | c :: rest =>
      if c = sep then [] :: pySplit sep rest
      else
        match pySplit sep rest with
        | h :: t => (c :: h) :: t
        | [] => [[c]]

/-- Digit run of a Python integer literal: digits optionally
separated by single underscores that must stand between two digits. -/
def pyDigits : Nat → List Char → Option Nat
  | acc, [] => some acc
  | acc, '_' :: c :: rest =>
      if c.isDigit then pyDigits (acc * 10 + (c.toNat - 48)) rest else none
  | acc, c :: rest =>
      if c.isDigit then pyDigits (acc * 10 + (c.toNat - 48)) rest else none

/-- Python whitespace stripped by `int(str)`. -/
def isPySpace (c : Char) : Bool :=
  c = ' ' || c = '\t' || c = '\n' || c = '\r' || c = '\x0b' || c = '\x0c'

/-- `int(s)` on a Python `str`: optional surrounding whitespace, an
optional sign, then a non-empty underscore-grouped digit run;
anything else raises `ValueError`, modelled as `none`. -/
def pyInt (l : List Char) : Option Int :=
  let core := ((l.dropWhile isPySpace).reverse.dropWhile isPySpace).reverse
  match core with
  | '+' :: c :: rest =>
      if c.isDigit then (pyDigits (c.toNat - 48) rest).map Int.ofNat else none
  | '-' :: c :: rest =>
      if c.isDigit then (pyDigits (c.toNat - 48) rest).map (fun n => -(n : Int))
      else none
  | c :: rest =>
      if c.isDigit then (pyDigits (c.toNat - 48) rest).map Int.ofNat else none
  | [] => none

/-- `[int(x) for x in v.split('.')]`, `None` when any component
raises. -/
def version_parts (v : String) : Option (List Int) :=
  (pySplit '.' v.toList).mapM pyInt

/-- `ValidationService.is_version_compatible` with an explicit schema
version: parse both versions as dot-separated integer lists and
compare the major (first) components; any `ValueError`/`IndexError`
yields `False`. -/
def is_version_compatible (spec_version schema_version : String) : Bool :=
  match version_parts spec_version, version_parts schema_version with
  | some spec_parts, some schema_parts =>
      match spec_parts, schema_parts with
      | a :: _, b :: _ => a == b
      | _, _ => false
  | _, _ => false

/-! ## Project store (`app/services/project.py`)

The on-disk state is modelled explicitly: a project directory holds
the optional `spec.json` contents, the optional `snapshots/`
directory (an association list filename → file contents) and the
`exports/` directory flag.  File contents are `RawDoc`s: writing a
`ProjectSpec` stores `.valid spec` (the `model_dump` → `json` →
`model_validate` round trip of a validated document is the identity
on the modelled fields); an externally corrupted file is an
`.invalid` document. -/

/-- One project directory (`<projects_root>/<project_id>/`). -/
structure ProjectDir where
  spec_file : Option RawDoc
  snapshots : Option (List (String × RawDoc))
  exports : Bool
deriving DecidableEq, Repr

/-- The projects root: project id → directory. -/
structure FS where
  projects : List (String × ProjectDir)
deriving DecidableEq, Repr

/-- Exceptions raised by `ProjectService`:
`alreadyExists` / `invalidSpec` are the two `ValueError`s (the latter
formats the validator's error list into its message),
`notFound` is `ProjectNotFoundError`, and `snapshotNotFound` /
`fileNotFound` are the `FileNotFoundError`s for a missing snapshot
and a missing copy source. -/
inductive StoreError where
  | alreadyExists (project_id : String)
  | invalidSpec (errors : List SpecError)
  | notFound (project_id : String)
  | snapshotNotFound (filename : String)
  | fileNotFound (path : String)
deriving DecidableEq, Repr

/-- Directory existence / lookup for a project id. -/
def lookupDir (fs : FS) (project_id : String) : Option ProjectDir :=
  (fs.projects.find? (·.1 = project_id)).map (·.2)

/-- Write a project directory (overwrite if present, else create). -/
def setDir (fs : FS) (project_id : String) (d : ProjectDir) : FS :=
  if fs.projects.any (·.1 = project_id) then
    ⟨fs.projects.map (fun p => if p.1 = project_id then (project_id, d) else p)⟩
  else ⟨fs.projects ++ [(project_id, d)]⟩

/-- Write a file into a directory listing (`shutil.copy2` semantics:
overwrite if the name exists, else create). -/
def writeFile (files : List (String × RawDoc)) (name : String) (content : RawDoc) :
    List (String × RawDoc) :=
  if files.any (·.1 = name) then
    files.map (fun p => if p.1 = name then (name, content) else p)
  else files ++ [(name, content)]

/-- Snapshot filename `f"{timestamp}_{description.replace(' ', '_')}.json"`
(the one-character `str.replace` is a per-character map). -/
def snapshot_name (timestamp : Date) (desc : String) : String :=
  timestamp ++ "_" ++ String.mk (desc.toList.map (fun c => if c = ' ' then '_' else c))
    ++ ".json"

/-- Python truthiness of the optional `change_description` (both
`None` and the empty string are falsy). -/
def truthyDesc : Option String → Bool
  | none => false
  | some d => d ≠ ""

/-- `ProjectService.load_project`: `NotFound` when `spec.json` does
not exist, re-validation of the stored data with `validate_full`
(invalid stored data raises `ValueError` built from the validator's
error list), then the parsed document. -/
def load_project (project_id : String) (fs : FS) : Except StoreError ProjectSpec :=
  match lookupDir fs project_id with
  | none => .error (.notFound project_id)
  | some dir =>
      match dir.spec_file with
      | none => .error (.notFound project_id)
      | some data =>
          let vr := validate_full data
          if vr.is_valid then
            match data with
            | .valid spec => .ok spec
            | .invalid _ => .error (.invalidSpec vr.errors)
          else .error (.invalidSpec vr.errors)

/-- `ProjectService.create_project`: duplicate-id check, full
validation of the initial document, directory creation (`snapshots/`
and `exports/`), the synthetic "创建项目" change-history entry,
`_save_spec`, and the initial "项目创建" snapshot.  The mutated file
system is returned alongside the result (on error the state at the
raise point, which for `create` is always the input state). -/
def create_project (project_id : String) (initial : RawDoc) (today : Date)
    (timestamp : Date) (fs : FS) : Except StoreError ProjectSpec × FS :=
  match lookupDir fs project_id with
  | some _ => (.error (.alreadyExists project_id), fs)
  | none =>
      let vr := validate_full initial
      if vr.is_valid then
        match initial with
        | .valid spec0 =>
            let spec := { spec0 with
              change_history := spec0.change_history
                ++ [{ date := today, change_text := "创建项目 " ++ project_id,
                      related := some ["project"] }] }
            let dir : ProjectDir :=
              { spec_file := some (.valid spec)
                snapshots := some [(snapshot_name timestamp "项目创建", .valid spec)]
                exports := true }
            (.ok spec, setDir fs project_id dir)
        | .invalid _ =>
            -- unreachable: `validate_full` never accepts a document
            -- that `pydantic` rejected
            (.error (.invalidSpec vr.errors), fs)
      else (.error (.invalidSpec vr.errors), fs)

/-- `ProjectService.save_project`: `NotFound` when the project
directory does not exist; stamps `last_updated` to today, appends a
change-history entry only for a truthy description, and writes
`spec.json`.  Python mutates the passed `spec` in place; the mutated
document is returned here so callers (`restore_snapshot`) observe
it. -/
def save_project (project_id : String) (spec : ProjectSpec) (change_description : Option String)
    (today : Date) (fs : FS) : Except StoreError ProjectSpec × FS :=
  match lookupDir fs project_id with
  | none => (.error (.notFound project_id), fs)
  | some dir =>
      let spec1 := { spec with last_updated := today }
      let spec2 :=
        if truthyDesc change_description then
          { spec1 with change_history := spec1.change_history
            ++ [{ date := today, change_text := change_description.getD "",
                  related := none }] }
        else spec1
      (.ok spec2, setDir fs project_id { dir with spec_file := some (.valid spec2) })

/-- One listed snapshot (`filename`, parsed timestamp, description).
The timestamp is kept in its canonical `YYYYMMDD_HHMMSS` spelling, on
which lexicographic order coincides with chronological order; the
file byte size reported by the Python code is storage presentation
and is not modelled. -/
structure SnapshotMeta where
  filename : String
  timestamp : String
  snapshot_desc : String
deriving DecidableEq, Repr

/-- Python `str.split(sep, maxsplit)` for a one-character separator. -/
def pySplitMax (sep : Char) : Nat → List Char → List (List Char)
  | _, [] => [[]]
  | 0, l => [l]
  | maxsplit + 1, c :: rest =>
      if c = sep then [] :: pySplitMax sep maxsplit rest
      else
        match pySplitMax sep (maxsplit + 1) rest with
        | h :: t => (c :: h) :: t
        | [] => [[c]]

/-- `Path.stem`: the filename with its last dot-suffix removed. -/
def pathStem (l : List Char) : List Char :=
  match l.reverse.dropWhile (· ≠ '.') with
  | '.' :: rest => rest.reverse
  | _ => l

/-- `name.endswith(".json")` (the `snapshots_dir.glob("*.json")`
filter). -/
def endsWithJson (l : List Char) : Bool :=
  l.reverse.take 5 = ['n', 'o', 's', 'j', '.']

/-- Decimal value of a digit run, `none` on a non-digit. -/
def digitsVal : List Char → Option Nat
  | [] => some 0
  | c :: rest =>
      if c.isDigit then
        (digitsVal rest).map (fun n => (c.toNat - 48) * 10 ^ rest.length + n)
      else none

/-- Days of a month in the proleptic Gregorian calendar. -/
def days_in_month (y m : Nat) : Nat :=
  if m = 2 then
    if y % 4 = 0 && (y % 100 ≠ 0 || y % 400 = 0) then 29 else 28
  else if m = 4 || m = 6 || m = 9 || m = 11 then 30
  else 31

/-- `datetime.strptime(s, "%Y%m%d_%H%M%S")` success, modelled as the
fixed-width field check with calendar/clock range validation
(`datetime` rejects year 0, invalid month/day combinations, and
out-of-range clock fields). -/
def valid_timestamp (l : List Char) : Bool :=
  match l with
  | [y1, y2, y3, y4, m1, m2, d1, d2, u, h1, h2, mi1, mi2, s1, s2] =>
      u = '_' &&
      (match digitsVal [y1, y2, y3, y4], digitsVal [m1, m2], digitsVal [d1, d2],
             digitsVal [h1, h2], digitsVal [mi1, mi2], digitsVal [s1, s2] with
       | some y, some mo, some d, some h, some mi, some s =>
           1 ≤ y && 1 ≤ mo && mo ≤ 12 && 1 ≤ d && d ≤ days_in_month y mo &&
           h ≤ 23 && mi ≤ 59 && s ≤ 59
       | _, _, _, _, _, _ => false)
  | _ => false

/-- Parse one snapshot filename into a listing entry as
`list_snapshots` does: split the stem on `"_"` with maxsplit 2,
require a valid timestamp from the first two parts, default the
description to "快照", and map its underscores back to spaces. -/
def parse_snapshot_entry (name : String) : Option SnapshotMeta :=
  if endsWithJson name.toList then
    match pySplitMax '_' 2 (pathStem name.toList) with
    | p0 :: p1 :: rest =>
        let tsChars := p0 ++ '_' :: p1
        let desc := match rest with
          | r :: _ => String.mk (r.map (fun c => if c = '_' then ' ' else c))
          | [] => "快照"
        if valid_timestamp tsChars then
          some { filename := name, timestamp := String.mk tsChars, snapshot_desc := desc }
        else none
    | _ => none
  else none

/-- Stable descending insertion by timestamp (a later-listed entry
with an equal timestamp stays after the earlier one), modelling
`sorted(snapshots, key=..., reverse=True)`. -/
def insertByTs (x : SnapshotMeta) : List SnapshotMeta → List SnapshotMeta
  | [] => [x]
  | y :: ys => if x.timestamp > y.timestamp then x :: y :: ys else y :: insertByTs x ys

/-- `sorted(..., key=lambda x: x["timestamp"], reverse=True)`. -/
def sortByTsDesc (l : List SnapshotMeta) : List SnapshotMeta :=
  l.foldl (fun acc x => insertByTs x acc) []

/-- `ProjectService.list_snapshots`: the empty list when the
`snapshots/` directory does not exist (in particular for an absent
project), otherwise the parseable `*.json` entries sorted newest
first.  Entries whose name does not parse back into a timestamp are
silently skipped. -/
def list_snapshots (project_id : String) (fs : FS) : List SnapshotMeta :=
  match lookupDir fs project_id with
  | none => []
  | some dir =>
      match dir.snapshots with
      | none => []
      | some files => sortByTsDesc (files.filterMap (fun p => parse_snapshot_entry p.1))

/-- `ProjectService.restore_snapshot`: `FileNotFoundError` when the
named snapshot does not exist; otherwise a "恢复前备份" backup
snapshot of the current live `spec.json` is taken, the snapshot is
copied over `spec.json`, the project is re-loaded (and re-validated)
via `load_project`, the "从快照 … 恢复" change-history entry is
appended and persisted through `save_project`.  On an exception the
file system mutated so far is returned with the error. -/
def restore_snapshot (project_id snapshot_filename : String) (today : Date)
    (timestamp : Date) (fs : FS) : Except StoreError ProjectSpec × FS :=
  match lookupDir fs project_id with
  | none => (.error (.snapshotNotFound snapshot_filename), fs)
  | some dir =>
      match dir.snapshots with
      | none => (.error (.snapshotNotFound snapshot_filename), fs)
      | some snaps =>
          match (snaps.find? (·.1 = snapshot_filename)).map (·.2) with
          | none => (.error (.snapshotNotFound snapshot_filename), fs)
          | some snapContent =>
              match dir.spec_file with
              | none => (.error (.fileNotFound "spec.json"), fs)
              | some live =>
                  let snaps1 := writeFile snaps (snapshot_name timestamp "恢复前备份") live
                  let fs1 := setDir fs project_id
                    { dir with snapshots := some snaps1, spec_file := some snapContent }
                  match load_project project_id fs1 with
                  | .error e => (.error e, fs1)
                  | .ok spec =>
                      let spec1 := { spec with change_history := spec.change_history
                        ++ [{ date := today,
                              change_text := "从快照 " ++ snapshot_filename ++ " 恢复",
                              related := some ["project"] }] }
                      save_project project_id spec1 none today fs1

/-! ## Concrete documents and stores used by witnesses and
counterexamples -/

/-- A scenario with the given id and dependencies and neutral
remaining fields. -/
def mkScenario (sid : Option String) (deps : List String) : Scenario :=
  { id := sid, name := "场景", story := { user_type := "用户", action := "操作", benefit := "收益" },
    required_functions := [], acceptance_criteria := [], priority := none,
    status := none, dependencies := deps, estimated_complexity := none }

/-- A document with the given scope and scenarios and neutral
remaining fields. -/
def mkDoc (sc : Scope) (scenarios : List Scenario) : ProjectSpec :=
  { last_updated := "2024-01-01", spec_version := "1.0",
    core_idea := { problem_statement := "问题", target_audience := "受众", core_value := "价值" },
    scope := sc, end_to_end_flow := none, scenarios := scenarios,
    prioritization := none, decision_log := [], change_history := [],
    non_functional_notes := [], interaction_session_models := none, meta := none }

/-- Three-node dependency cycle `scn-a → scn-b → scn-c → scn-a`. -/
def doc3cycle : ProjectSpec :=
  mkDoc ⟨[], []⟩
    [mkScenario (some "scn-a") ["scn-b"],
     mkScenario (some "scn-b") ["scn-c"],
     mkScenario (some "scn-c") ["scn-a"]]

/-- Direct mutual pair `scn-a ↔ scn-b`. -/
def docPair : ProjectSpec :=
  mkDoc ⟨[], []⟩
    [mkScenario (some "scn-a") ["scn-b"],
     mkScenario (some "scn-b") ["scn-a"]]

/-- A single scenario depending on itself. -/
def docSelf1 : ProjectSpec :=
  mkDoc ⟨[], []⟩ [mkScenario (some "scn-a") ["scn-a"]]

/-- The same self-loop next to a second, independent scenario. -/
def docSelf2 : ProjectSpec :=
  mkDoc ⟨[], []⟩
    [mkScenario (some "scn-a") ["scn-a"],
     mkScenario (some "scn-b") []]

/-- Scope with `inScope = {"A","B"}`, `outOfScope = {"B","C"}`. -/
def docOverlap : ProjectSpec := mkDoc ⟨["A", "B"], ["B", "C"]⟩ []

/-- A minimal valid document (no scenarios, empty scope). -/
def demoSpec : ProjectSpec := mkDoc ⟨[], []⟩ []

/-- The same document content with an older `lastUpdated`, used as
snapshot content. -/
def demoOld : ProjectSpec := { demoSpec with last_updated := "2023-12-31" }

/-- A store holding one project whose live document is `demoSpec` and
whose snapshot history holds `demoOld`. -/
def demoFS : FS :=
  ⟨[("p1", { spec_file := some (.valid demoSpec)
             snapshots := some [("20240101_120000_旧版.json", .valid demoOld)]
             exports := true })]⟩

/-- A pydantic-style schema error used by the corrupted store. -/
def corruptErr : SchemaError :=
  { field := "coreIdea", message := "Field required", error_type := "missing" }

/-- A store whose single project holds externally corrupted bytes. -/
def corruptFS : FS :=
  ⟨[("p1", { spec_file := some (.invalid [corruptErr])
             snapshots := some []
             exports := true })]⟩

/-- A scenario `scn-x` depending on the nonexistent `scn-y`. -/
def docMissing : ProjectSpec :=
  mkDoc ⟨[], []⟩ [mkScenario (some "scn-x") ["scn-y"]]

/-- The change-history entry `restore_snapshot` appends. -/
def restore_entry (name : String) (today : Date) : ChangeHistory :=
  { date := today, change_text := "从快照 " ++ name ++ " 恢复", related := some ["project"] }

/-- Snapshot content `S` as it stands live after a restore on
`today`: `lastUpdated` stamped by the save, the restore entry
appended. -/
def restored_doc (S : ProjectSpec) (name : String) (today : Date) : ProjectSpec :=
  { S with last_updated := today
           change_history := S.change_history ++ [restore_entry name today] }

/-- Snapshot content `S` with only the restore entry appended — what
the claim literally predicts the live document to be after a
restore. -/
def claim_restored_doc (S : ProjectSpec) (name : String) (today : Date) : ProjectSpec :=
  { S with change_history := S.change_history ++ [restore_entry name today] }

/-- Discriminator for schema (pydantic) errors. -/
def isSchemaError : SpecError → Bool
  | .schema _ => true
  | _ => false

/-- Discriminator for `scope_overlap` errors. -/
def isScopeOverlap : SpecError → Bool
  | .scope_overlap _ => true
  | _ => false

/-- Discriminator for `circular_dependency` errors. -/
def isCircularDependency : SpecError → Bool
  | .circular_dependency _ => true
  | _ => false

/-! ## Helper lemmas -/

/-- The error list of a business-rule result, in source order. -/
theorem errors_eq (spec : ProjectSpec) :
    (validate_business_rules spec).errors =
      scopeErrors spec ++ missingDependencyErrors spec ++ circularDependencyErrors spec := rfl

/-- Validity of a business-rule result is emptiness of its errors. -/
theorem is_valid_eq (spec : ProjectSpec) :
    (validate_business_rules spec).is_valid = (validate_business_rules spec).errors.isEmpty := rfl

/-- Any error in a business-rule result falsifies `is_valid`. -/
theorem mem_errors_not_valid {spec : ProjectSpec} {e : SpecError}
    (h : e ∈ (validate_business_rules spec).errors) :
    (validate_business_rules spec).is_valid = false := by
  rw [is_valid_eq]
  exact List.isEmpty_eq_false.mpr (List.ne_nil_of_mem h)

/-- The scope check emits only the one overlap error. -/
theorem mem_scopeErrors {spec : ProjectSpec} {e : SpecError} (h : e ∈ scopeErrors spec) :
    e = SpecError.scope_overlap (scope_overlap_items spec.scope) ∧
      scope_overlap_items spec.scope ≠ [] := by
  unfold scopeErrors at h
  by_cases hc : scope_overlap_items spec.scope ≠ []
  · simp only [if_pos hc, List.mem_singleton] at h
    exact ⟨h, hc⟩
  · simp [hc] at h

/-- The dangling-dependency check emits only `missing_dependency`
errors. -/
theorem mem_missingDependencyErrors {spec : ProjectSpec} {e : SpecError}
    (h : e ∈ missingDependencyErrors spec) :
    ∃ sid dep, e = SpecError.missing_dependency sid dep := by
  unfold missingDependencyErrors at h
  split at h
  · rcases List.mem_flatMap.mp h with ⟨s, _, hm⟩
    unfold missingFor at hm
    rcases List.mem_filterMap.mp hm with ⟨dep, _, hsome⟩
    split at hsome
    · exact absurd hsome (by simp)
    · exact ⟨_, _, (Option.some.inj hsome).symm⟩
  · simp at h

/-- The cycle check emits only `circular_dependency` errors. -/
theorem mem_circularDependencyErrors {spec : ProjectSpec} {e : SpecError}
    (h : e ∈ circularDependencyErrors spec) :
    ∃ l, e = SpecError.circular_dependency l := by
  unfold circularDependencyErrors at h
  split at h
  · rcases List.mem_flatMap.mp h with ⟨p, _, hm⟩
    rcases List.mem_filterMap.mp hm with ⟨dep, _, hsome⟩
    split at hsome
    next =>
      split at hsome
      · exact ⟨_, (Option.some.inj hsome).symm⟩
      · exact absurd hsome (by simp)
    next => exact absurd hsome (by simp)
  · simp at h

/-- Membership in the modelled scope intersection. -/
theorem mem_scope_overlap_items {sc : Scope} {x : String} :
    x ∈ scope_overlap_items sc ↔ x ∈ sc.in_scope ∧ x ∈ sc.out_of_scope := by
  unfold scope_overlap_items
  simp [List.mem_filter, List.mem_dedup]

/-- A `scope_overlap` error occurs exactly for the non-empty modelled
intersection, and names it. -/
theorem scope_overlap_mem_errors {spec : ProjectSpec} {items : List String} :
    SpecError.scope_overlap items ∈ (validate_business_rules spec).errors ↔
      scope_overlap_items spec.scope ≠ [] ∧ items = scope_overlap_items spec.scope := by
  constructor
  · intro h
    rw [errors_eq] at h
    rcases List.mem_append.mp h with h | h
    · rcases List.mem_append.mp h with h | h
      · rcases mem_scopeErrors h with ⟨he, hne⟩
        exact ⟨hne, (SpecError.scope_overlap.injEq _ _).mp he⟩
      · rcases mem_missingDependencyErrors h with ⟨_, _, he⟩
        exact absurd he (by simp)
    · rcases mem_circularDependencyErrors h with ⟨_, he⟩
      exact absurd he (by simp)
  · intro ⟨hne, hitems⟩
    rw [errors_eq]
    refine List.mem_append.mpr (Or.inl (List.mem_append.mpr (Or.inl ?_)))
    unfold scopeErrors
    simp only [if_pos hne, List.mem_singleton, hitems]

/-! ## Claims -/

/-- C1: the spec requires `validate_business_rules` to report a
`circular_dependency` hard error, with the participating scenario IDs
as witness, for every directed dependency cycle of any length — in
particular for the three-node cycle `scn-a → scn-b → scn-c → scn-a`.
The code evaluated on exactly that document reports no error at all
and deems the document valid; only direct two-node mutual pairs (as
in `docPair`) are reported.  This contradicts the stated design
requirement, so the claim is a code bug, not a spec error. -/
theorem circular_three_node_cycle_undetected :
    (validate_business_rules doc3cycle).errors = []
    ∧ (validate_business_rules doc3cycle).is_valid = true
    ∧ (validate_business_rules docPair).errors =
        [SpecError.circular_dependency ["scn-a", "scn-b"],
         SpecError.circular_dependency ["scn-b", "scn-a"]] := by
  refine ⟨by decide, by decide, by decide⟩

/-- C9: the circular-dependency check only runs when the document has
strictly more than one scenario.  Generally, any document with at
most one scenario produces no `circular_dependency` error; the
concrete single-scenario self-loop `docSelf1` produces no error at
all, while the identical self-loop next to a second scenario
(`docSelf2`) is reported. -/
theorem circular_check_requires_two_scenarios :
    (∀ spec : ProjectSpec, spec.scenarios.length ≤ 1 →
      (validate_business_rules spec).errors.filter isCircularDependency = [])
    ∧ (validate_business_rules docSelf1).errors = []
    ∧ (validate_business_rules docSelf2).errors =
        [SpecError.circular_dependency ["scn-a", "scn-a"]] := by
  refine ⟨?_, by decide, by decide⟩
  intro spec h
  rw [errors_eq, List.filter_append, List.filter_append]
  have h1 : circularDependencyErrors spec = [] := by
    unfold circularDependencyErrors
    have : ¬spec.scenarios.length > 1 := by omega
    simp [this]
  have h2 : (scopeErrors spec).filter isCircularDependency = [] := by
    refine List.filter_eq_nil_iff.mpr fun e he => ?_
    rcases mem_scopeErrors he with ⟨rfl, _⟩
    simp [isCircularDependency]
  have h3 : (missingDependencyErrors spec).filter isCircularDependency = [] := by
    refine List.filter_eq_nil_iff.mpr fun e he => ?_
    rcases mem_missingDependencyErrors he with ⟨sid, dep, rfl⟩
    simp [isCircularDependency]
  rw [h1, h2, h3]
  rfl

/-- Witness for C9: the single-scenario self-loop document passes the
hypothesis of the general part and indeed yields no
`circular_dependency` error. -/
theorem circular_check_requires_two_scenarios_witness :
    (validate_business_rules docSelf1).errors.filter isCircularDependency = [] :=
  circular_check_requires_two_scenarios.1 docSelf1 (by decide)

/-- C4: the scope-overlap rule.  A `scope_overlap` error is emitted
iff `inScope` and `outOfScope` intersect; every emitted error names
exactly the intersection; at most one such error is emitted; it is a
hard error (the result is invalid); the check is symmetric in the two
sets; and on `inScope = {"A","B"}`, `outOfScope = {"B","C"}` the
result is exactly one `scope_overlap` error naming `{"B"}`. -/
theorem scope_overlap_exact (spec : ProjectSpec) :
    ((∃ items, SpecError.scope_overlap items ∈ (validate_business_rules spec).errors) ↔
        ∃ x, x ∈ spec.scope.in_scope ∧ x ∈ spec.scope.out_of_scope)
    ∧ (∀ items, SpecError.scope_overlap items ∈ (validate_business_rules spec).errors →
        ∀ x, x ∈ items ↔ (x ∈ spec.scope.in_scope ∧ x ∈ spec.scope.out_of_scope))
    ∧ ((validate_business_rules spec).errors.filter isScopeOverlap).length ≤ 1
    ∧ ((∃ items, SpecError.scope_overlap items ∈ (validate_business_rules spec).errors) →
        (validate_business_rules spec).is_valid = false)
    ∧ (∀ x, x ∈ scope_overlap_items spec.scope ↔
        x ∈ scope_overlap_items ⟨spec.scope.out_of_scope, spec.scope.in_scope⟩)
    ∧ (validate_business_rules docOverlap).errors = [SpecError.scope_overlap ["B"]] := by
  refine ⟨?_, ?_, ?_, ?_, ?_, by decide⟩
  · constructor
    · intro ⟨items, hmem⟩
      rcases scope_overlap_mem_errors.mp hmem with ⟨hne, _⟩
      rcases List.exists_mem_of_ne_nil _ hne with ⟨x, hx⟩
      exact ⟨x, mem_scope_overlap_items.mp hx⟩
    · intro ⟨x, hx⟩
      have hne : scope_overlap_items spec.scope ≠ [] :=
        List.ne_nil_of_mem (mem_scope_overlap_items.mpr hx)
      exact ⟨_, scope_overlap_mem_errors.mpr ⟨hne, rfl⟩⟩
  · intro items hmem x
    rcases scope_overlap_mem_errors.mp hmem with ⟨_, rfl⟩
    exact mem_scope_overlap_items
  · rw [errors_eq, List.filter_append, List.filter_append]
    have h2 : (missingDependencyErrors spec).filter isScopeOverlap = [] := by
      refine List.filter_eq_nil_iff.mpr fun e he => ?_
      rcases mem_missingDependencyErrors he with ⟨sid, dep, rfl⟩
      simp [isScopeOverlap]
    have h3 : (circularDependencyErrors spec).filter isScopeOverlap = [] := by
      refine List.filter_eq_nil_iff.mpr fun e he => ?_
      rcases mem_circularDependencyErrors he with ⟨l, rfl⟩
      simp [isScopeOverlap]
    rw [h2, h3, List.append_nil, List.append_nil]
    simp only [scopeErrors]
    split
    · simp [isScopeOverlap]
    · simp
  · intro ⟨items, hmem⟩
    exact mem_errors_not_valid hmem
  · intro x
    rw [mem_scope_overlap_items, mem_scope_overlap_items]
    exact and_comm

/-- Witness for C4: instantiated on the concrete overlapping
document, the emitted error makes the result invalid. -/
theorem scope_overlap_exact_witness :
    (validate_business_rules docOverlap).is_valid = false :=
  (scope_overlap_exact docOverlap).2.2.2.1 ⟨["B"], by decide⟩

/-- C2: `is_version_compatible` returns `true` exactly when both
version strings parse as dot-separated Python integers with equal
first (major) components; an unparseable argument always yields
`false` (the code catches `ValueError`/`IndexError`, so the total
Lean function models "never raises"); and the three documented
examples hold. -/
theorem is_version_compatible_spec :
    (∀ s t : String, is_version_compatible s t = true ↔
      ∃ a sp sc, version_parts s = some (a :: sp) ∧ version_parts t = some (a :: sc))
    ∧ (∀ s t : String, version_parts s = none ∨ version_parts t = none →
        is_version_compatible s t = false)
    ∧ is_version_compatible "2.1" "2.0" = true
    ∧ is_version_compatible "1.5" "2.0" = false
    ∧ is_version_compatible "bad" "2.0" = false := by
  refine ⟨?_, ?_, by decide, by decide, by decide⟩
  · intro s t
    unfold is_version_compatible
    cases hs : version_parts s with
    | none => simp [hs]
    | some sp =>
      cases ht : version_parts t with
      | none => simp [ht]
      | some sc =>
        cases sp with
        | nil => simp [hs]
        | cons a sp' =>
          cases sc with
          | nil => simp [ht]
          | cons b sc' =>
            simp only [beq_iff_eq]
            constructor
            · intro hab
              exact ⟨a, sp', sc', rfl, by rw [hab]⟩
            · intro ⟨a', sp0, sc0, h1, h2⟩
              injection h1 with h1
              injection h2 with h2
              injection h1 with ha _
              injection h2 with hb _
              rw [ha, hb]
  · intro s t h
    unfold is_version_compatible
    rcases h with h | h
    · rw [h]
    · rw [h]
      cases version_parts s <;> rfl

/-- Witness for C2: both general parts applied at concrete strings —
`"2.1"`/`"2.0"` share major `2`, and the unparseable `"bad"` is
incompatible with everything. -/
theorem is_version_compatible_spec_witness :
    is_version_compatible "2.1" "2.0" = true
    ∧ is_version_compatible "bad" "2.0" = false :=
  ⟨(is_version_compatible_spec.1 "2.1" "2.0").mpr ⟨2, [1], [0], by decide, by decide⟩,
   is_version_compatible_spec.2.1 "bad" "2.0" (Or.inl (by decide))⟩

/-- C10: `list_snapshots` returns the empty list, rather than
failing, whenever the snapshots directory does not exist — both when
the project identifier has no directory at all and when the project
exists without a `snapshots/` directory. -/
theorem list_snapshots_absent_empty :
    (∀ (fs : FS) (pid : String), lookupDir fs pid = none → list_snapshots pid fs = [])
    ∧ (∀ (fs : FS) (pid : String) (dir : ProjectDir), lookupDir fs pid = some dir →
        dir.snapshots = none → list_snapshots pid fs = []) := by
  constructor
  · intro fs pid h
    unfold list_snapshots
    rw [h]
  · intro fs pid dir h hs
    unfold list_snapshots
    simp only [h, hs]

/-- Witness for C10: listing snapshots of a project absent from an
empty store yields the empty list. -/
theorem list_snapshots_absent_empty_witness :
    list_snapshots "nonexistent" ⟨[]⟩ = [] :=
  list_snapshots_absent_empty.1 ⟨[]⟩ "nonexistent" (by decide)

/-- C8: `load_project` is fail-closed.  If the stored document
exists but no longer passes full validation, loading raises the
invalid-spec error built from the validator's error list; conversely
every successfully loaded document is exactly the stored one and
passes full validation, so an invalid stored document is never
returned. -/
theorem load_project_fail_closed :
    (∀ (fs : FS) (pid : String) (dir : ProjectDir) (data : RawDoc),
      lookupDir fs pid = some dir → dir.spec_file = some data →
      (validate_full data).is_valid = false →
      load_project pid fs = .error (.invalidSpec (validate_full data).errors))
    ∧ (∀ (fs : FS) (pid : String) (spec : ProjectSpec),
        load_project pid fs = .ok spec →
        ∃ dir, lookupDir fs pid = some dir ∧ dir.spec_file = some (.valid spec) ∧
          (validate_full (.valid spec)).is_valid = true) := by
  constructor
  · intro fs pid dir data h1 h2 h3
    unfold load_project
    simp only [h1, h2]
    simp [h3]
  · intro fs pid spec h
    unfold load_project at h
    cases hd : lookupDir fs pid with
    | none => simp only [hd] at h; exact absurd h (by simp)
    | some dir =>
      simp only [hd] at h
      cases hf : dir.spec_file with
      | none => simp only [hf] at h; exact absurd h (by simp)
      | some data =>
        simp only [hf] at h
        by_cases hv : (validate_full data).is_valid
        · cases data with
          | valid s =>
            simp only [hv, if_true] at h
            rcases Except.ok.inj h with rfl
            exact ⟨dir, rfl, hf, hv⟩
          | invalid errs =>
            exact absurd hv (by simp [validate_full, validate_with_pydantic])
        · simp [hv] at h

/-- Witness for C8: loading the corrupted store raises the
invalid-spec error carrying the validator's error list. -/
theorem load_project_fail_closed_witness :
    load_project "p1" corruptFS =
      .error (.invalidSpec (validate_full (.invalid [corruptErr])).errors) :=
  load_project_fail_closed.1 corruptFS "p1"
    { spec_file := some (.invalid [corruptErr])
      snapshots := some []
      exports := true }
    (.invalid [corruptErr])
    (by decide) (by decide) (by decide)

/-- Every error of a business-rule result is a business error, never
a schema error. -/
theorem business_errors_not_schema {spec : ProjectSpec} {e : SpecError}
    (h : e ∈ (validate_business_rules spec).errors) : isSchemaError e = false := by
  rw [errors_eq] at h
  rcases List.mem_append.mp h with h | h
  · rcases List.mem_append.mp h with h | h
    · rcases mem_scopeErrors h with ⟨rfl, _⟩
      rfl
    · rcases mem_missingDependencyErrors h with ⟨_, _, rfl⟩
      rfl
  · rcases mem_circularDependencyErrors h with ⟨_, rfl⟩
    rfl

/-- C3: `validate_full` first runs schema (pydantic) validation and
on failure returns that result unchanged without evaluating business
rules; on success it returns exactly the business-rule result's
fields; and no result ever mixes schema errors with business-rule
errors. -/
theorem validate_full_masks_business :
    (∀ d : RawDoc, (validate_with_pydantic d).is_valid = false →
      validate_full d = validate_with_pydantic d)
    ∧ (∀ spec : ProjectSpec, validate_full (.valid spec) =
        { is_valid := (validate_business_rules spec).is_valid
          errors := (validate_business_rules spec).errors
          warnings := (validate_business_rules spec).warnings })
    ∧ (∀ d : RawDoc, ¬((∃ e ∈ (validate_full d).errors, isSchemaError e = true)
        ∧ (∃ e ∈ (validate_full d).errors, isSchemaError e = false))) := by
  refine ⟨?_, fun spec => rfl, ?_⟩
  · intro d h
    cases d with
    | valid spec => exact absurd h (by simp [validate_with_pydantic])
    | invalid errs => rfl
  · intro d ⟨⟨e1, h1, hs1⟩, ⟨e2, h2, hs2⟩⟩
    cases d with
    | valid spec =>
      have : isSchemaError e1 = false := business_errors_not_schema h1
      rw [hs1] at this
      exact Bool.true_eq_false.mp this
    | invalid errs =>
      have : isSchemaError e2 = true := by
        rcases List.mem_map.mp h2 with ⟨se, _, rfl⟩
        rfl
      rw [hs2] at this
      exact Bool.false_eq_true.mp this

/-- Witness for C3: a pydantic failure is returned as-is. -/
theorem validate_full_masks_business_witness :
    validate_full (.invalid [corruptErr]) = validate_with_pydantic (.invalid [corruptErr]) :=
  validate_full_masks_business.1 (.invalid [corruptErr]) (by decide)

/-- Per-dependency-list count of `missing_dependency` errors: one
error per occurrence of the missing id, none when the id exists. -/
theorem count_missingAux (ids : List String) (owner : String) (l : List String)
    (sid dep : String) :
    ((l.filterMap (fun d => if d ∈ ids then none
        else some (SpecError.missing_dependency owner d))).count
      (SpecError.missing_dependency sid dep)) =
    if dep ∈ ids then 0 else if owner = sid then l.count dep else 0 := by
  induction l with
  | nil => simp
  | cons d t ih =>
    by_cases hd : d ∈ ids
    · rw [List.filterMap_cons]
      simp only [if_pos hd]
      rw [ih, List.count_cons]
      by_cases hdep : dep ∈ ids
      · simp [hdep]
      · by_cases ho : owner = sid
        · simp only [if_neg hdep, if_pos ho]
          have hne : d ≠ dep := fun hh => hdep (hh ▸ hd)
          simp [hne]
        · simp [hdep, ho]
    · rw [List.filterMap_cons]
      simp only [if_neg hd]
      rw [List.count_cons, ih, List.count_cons]
      by_cases hdep : dep ∈ ids
      · have hne : d ≠ dep := fun hh => hd (hh ▸ hdep)
        simp [hdep, hne]
      · by_cases ho : owner = sid
        · by_cases hde : d = dep
          · simp [hdep, ho, hde]
          · simp [hdep, ho, hde]
        · have : (SpecError.missing_dependency owner d ==
              SpecError.missing_dependency sid dep) = false := by
            simp [ho]
          simp [hdep, ho, this]

/-- Counting over a flatMap of error lists. -/
theorem count_flatMap_err (l : List Scenario) (f : Scenario → List SpecError)
    (a : SpecError) :
    (l.flatMap f).count a = (l.map (fun s => (f s).count a)).sum := by
  induction l with
  | nil => rfl
  | cons s t ih => rw [List.flatMap_cons, List.count_append, ih, List.map_cons, List.sum_cons]

/-- Summing a guarded map equals summing over the filtered list. -/
theorem sum_map_ite (l : List Scenario) (p : Scenario → Prop) [DecidablePred p]
    (g : Scenario → Nat) :
    (l.map (fun s => if p s then g s else 0)).sum =
      ((l.filter (fun s => decide (p s))).map g).sum := by
  induction l with
  | nil => rfl
  | cons s t ih => by_cases h : p s <;> simp [h, ih]

/-- C5: exact accounting of `missing_dependency` errors.  For every
scenario id `sid` and dependency id `dep`, the number of
`missing_dependency sid dep` errors equals the total number of
occurrences of `dep` in the dependency lists of the scenarios whose
(printed) id is `sid` when `dep` is not some scenario's id, and zero
when it is; and any such error makes the result invalid (hard
error). -/
theorem missing_dependency_exact (spec : ProjectSpec) (sid dep : String) :
    ((validate_business_rules spec).errors.count (SpecError.missing_dependency sid dep) =
      if dep ∈ scenario_ids spec then 0
      else ((spec.scenarios.filter (fun s => decide (orUnknown s.id = sid))).map
            (fun s => s.dependencies.count dep)).sum)
    ∧ (SpecError.missing_dependency sid dep ∈ (validate_business_rules spec).errors →
        (validate_business_rules spec).is_valid = false) := by
  refine ⟨?_, fun h => mem_errors_not_valid h⟩
  rw [errors_eq, List.count_append, List.count_append]
  have hscope : (scopeErrors spec).count (SpecError.missing_dependency sid dep) = 0 := by
    refine List.count_eq_zero.mpr fun h => ?_
    rcases mem_scopeErrors h with ⟨he, _⟩
    exact absurd he (by simp)
  have hcirc : (circularDependencyErrors spec).count
      (SpecError.missing_dependency sid dep) = 0 := by
    refine List.count_eq_zero.mpr fun h => ?_
    rcases mem_circularDependencyErrors h with ⟨_, he⟩
    exact absurd he (by simp)
  rw [hscope, hcirc, Nat.zero_add, Nat.add_zero]
  unfold missingDependencyErrors
  by_cases hs : spec.scenarios ≠ []
  · simp only [if_pos hs]
    unfold missingFor
    rw [count_flatMap_err]
    have heach : (spec.scenarios.map (fun s =>
        ((s.dependencies.filterMap (fun d => if d ∈ scenario_ids spec then none
          else some (SpecError.missing_dependency (orUnknown s.id) d))).count
          (SpecError.missing_dependency sid dep)))) =
        (spec.scenarios.map (fun s =>
          if dep ∈ scenario_ids spec then 0
          else if orUnknown s.id = sid then s.dependencies.count dep else 0)) := by
      refine List.map_congr_left fun s _ => ?_
      exact count_missingAux (scenario_ids spec) (orUnknown s.id) s.dependencies sid dep
    rw [heach]
    by_cases hdep : dep ∈ scenario_ids spec
    · simp [hdep]
    · simp only [if_neg hdep]
      exact sum_map_ite spec.scenarios (fun s => orUnknown s.id = sid)
        (fun s => s.dependencies.count dep)
  · simp only [if_neg hs]
    push_neg at hs
    rw [hs]
    simp [scenario_ids, hs]

/-- Witness for C5: a dangling dependency makes the concrete
document invalid. -/
theorem missing_dependency_exact_witness :
    (validate_business_rules docMissing).is_valid = false :=
  (missing_dependency_exact docMissing "scn-x" "scn-y").2 (by decide)

/-- Overwriting a present key leaves it findable with the new value. -/
theorem find?_overwrite (l : List (String × ProjectDir)) (pid : String) (d : ProjectDir)
    (h : l.any (·.1 = pid) = true) :
    (l.map (fun p => if p.1 = pid then (pid, d) else p)).find? (·.1 = pid) = some (pid, d) := by
  induction l with
  | nil => simp at h
  | cons p t ih =>
    by_cases hp : p.1 = pid
    · simp [List.find?_cons, hp]
    · simp only [List.map_cons, if_neg hp]
      rw [List.find?_cons_of_neg _ (by simp [hp])]
      exact ih (by simpa [List.any_cons, hp] using h)

/-- A key absent from every entry is not found. -/
theorem find?_none_of_absent (l : List (String × ProjectDir)) (pid : String)
    (h : l.any (·.1 = pid) = false) :
    l.find? (·.1 = pid) = none := by
  rw [List.find?_eq_none]
  intro x hx
  simp only [decide_eq_true_eq]
  intro hxe
  rw [List.any_eq_false] at h
  exact absurd (by simpa using hxe) (h x hx)

/-- Looking up the project just written finds exactly it. -/
theorem lookupDir_setDir_self (fs : FS) (pid : String) (d : ProjectDir) :
    lookupDir (setDir fs pid d) pid = some d := by
  unfold lookupDir setDir
  cases h : fs.projects.any (·.1 = pid) with
  | true =>
    rw [if_pos rfl]
    show ((fs.projects.map (fun p => if p.1 = pid then (pid, d) else p)).find?
      (·.1 = pid)).map (·.2) = some d
    rw [find?_overwrite fs.projects pid d h]
    rfl
  | false =>
    rw [if_neg (by simp)]
    show ((fs.projects ++ [(pid, d)]).find? (·.1 = pid)).map (·.2) = some d
    rw [List.find?_append, find?_none_of_absent fs.projects pid h]
    simp

/-- `shutil.copy2` to a fresh filename appends the file. -/
theorem writeFile_fresh (files : List (String × RawDoc)) (name : String) (content : RawDoc)
    (h : files.any (·.1 = name) = false) :
    writeFile files name content = files ++ [(name, content)] := by
  unfold writeFile
  simp [h]

/-- C6: persistence round trip.  For a fresh project id and a valid
document `D`, `create` succeeds, a subsequent `save` of the created
document succeeds, and `load` then returns `D` itself except for
`lastUpdated` (stamped by the save) and the one appended
"创建项目" change-history entry; every other field of `D` survives
unchanged. -/
theorem create_save_load_roundtrip
    (fs : FS) (pid : String) (D : ProjectSpec) (today ts today2 : Date)
    (hfresh : lookupDir fs pid = none)
    (hvalid : (validate_full (.valid D)).is_valid = true) :
    ∃ (created : ProjectSpec) (fsA : FS) (saved : ProjectSpec) (fsB : FS),
      create_project pid (.valid D) today ts fs = (.ok created, fsA) ∧
      save_project pid created none today2 fsA = (.ok saved, fsB) ∧
      load_project pid fsB = .ok
        { D with last_updated := today2,
                 change_history := D.change_history
                   ++ [{ date := today, change_text := "创建项目 " ++ pid,
                         related := some ["project"] }] } := by
  set D1 : ProjectSpec := { D with change_history := D.change_history
    ++ [{ date := today, change_text := "创建项目 " ++ pid,
          related := some ["project"] }] } with hD1
  set dirA : ProjectDir :=
    { spec_file := some (.valid D1)
      snapshots := some [(snapshot_name ts "项目创建", .valid D1)]
      exports := true } with hdirA
  set D2 : ProjectSpec := { D1 with last_updated := today2 } with hD2
  set dirB : ProjectDir := { dirA with spec_file := some (.valid D2) } with hdirB
  refine ⟨D1, setDir fs pid dirA, D2, setDir (setDir fs pid dirA) pid dirB, ?_, ?_, ?_⟩
  · unfold create_project
    rw [hfresh]
    simp only [hvalid, if_true]
  · unfold save_project
    rw [lookupDir_setDir_self]
    rfl
  · unfold load_project
    rw [lookupDir_setDir_self]
    have hv2 : (validate_full (.valid D2)).is_valid = true := hvalid
    rw [hdirB]
    simp only [hv2, if_true]

/-- Witness for C6: the round trip on the minimal valid document in
an empty store. -/
theorem create_save_load_roundtrip_witness :
    ∃ (created : ProjectSpec) (fsA : FS) (saved : ProjectSpec) (fsB : FS),
      create_project "p1" (.valid demoSpec) "2024-01-02" "20240102_120000" ⟨[]⟩ =
        (.ok created, fsA) ∧
      save_project "p1" created none "2024-01-03" fsA = (.ok saved, fsB) ∧
      load_project "p1" fsB = .ok
        { demoSpec with last_updated := "2024-01-03",
                        change_history := demoSpec.change_history
                          ++ [{ date := "2024-01-02", change_text := "创建项目 p1",
                                related := some ["project"] }] } :=
  create_save_load_roundtrip ⟨[]⟩ "p1" demoSpec "2024-01-02" "20240102_120000" "2024-01-03"
    (by decide) (by decide)

/-- C7 (amended): `restore_snapshot` on an existing snapshot first
writes a "恢复前备份" backup snapshot holding the pre-restore live
document, then overwrites the live document; afterwards the live
document equals snapshot `S`'s content except that `lastUpdated` is
stamped to the restore date, plus exactly one appended
change-history entry recording the restore; exactly one new snapshot
exists (the backup, appended to the unchanged previous ones).
`restore_snapshot` fails with the snapshot-not-found error when the
named snapshot does not exist. -/
theorem restore_snapshot_spec :
    (∀ (fs : FS) (pid name : String) (today ts : Date) (dir : ProjectDir)
       (snaps : List (String × RawDoc)) (live : RawDoc) (S : ProjectSpec),
      lookupDir fs pid = some dir →
      dir.snapshots = some snaps →
      snaps.find? (·.1 = name) = some (name, .valid S) →
      dir.spec_file = some live →
      (validate_full (.valid S)).is_valid = true →
      snaps.any (·.1 = snapshot_name ts "恢复前备份") = false →
      ∃ fs', restore_snapshot pid name today ts fs =
        (.ok (restored_doc S name today), fs')
        ∧ lookupDir fs' pid = some
            { dir with
              spec_file := some (.valid (restored_doc S name today))
              snapshots := some (snaps ++ [(snapshot_name ts "恢复前备份", live)]) })
    ∧ (∀ (fs : FS) (pid name : String) (today ts : Date) (dir : ProjectDir)
         (snaps : List (String × RawDoc)),
        lookupDir fs pid = some dir → dir.snapshots = some snaps →
        snaps.find? (·.1 = name) = none →
        restore_snapshot pid name today ts fs = (.error (.snapshotNotFound name), fs)) := by
  constructor
  · intro fs pid name today ts dir snaps live S hdir hsnaps hfind hlive hvalid hfresh
    refine ⟨setDir (setDir fs pid
        { dir with
          snapshots := some (snaps ++ [(snapshot_name ts "恢复前备份", live)])
          spec_file := some (.valid S) }) pid
        { dir with
          snapshots := some (snaps ++ [(snapshot_name ts "恢复前备份", live)])
          spec_file := some (.valid (restored_doc S name today)) }, ?_, ?_⟩
    · unfold restore_snapshot
      simp only [hdir, hsnaps, hfind, hlive, Option.map_some']
      rw [writeFile_fresh snaps (snapshot_name ts "恢复前备份") live hfresh]
      have hload : load_project pid (setDir fs pid
          { dir with
            snapshots := some (snaps ++ [(snapshot_name ts "恢复前备份", live)])
            spec_file := some (.valid S) }) = .ok S := by
        unfold load_project
        rw [lookupDir_setDir_self]
        simp only [hvalid, if_true]
      rw [hload]
      unfold save_project
      rw [lookupDir_setDir_self]
      rfl
    · rw [lookupDir_setDir_self]
  · intro fs pid name today ts dir snaps hdir hsnaps hfind
    unfold restore_snapshot
    simp only [hdir, hsnaps, hfind, Option.map_none']

/-- Witness for C7: the amended theorem instantiated on the concrete
store `demoFS` and its single snapshot. -/
theorem restore_snapshot_spec_witness :
    ∃ fs', restore_snapshot "p1" "20240101_120000_旧版.json" "2024-06-01"
        "20240601_090000" demoFS =
      (.ok (restored_doc demoOld "20240101_120000_旧版.json" "2024-06-01"), fs')
      ∧ lookupDir fs' "p1" = some
          { spec_file := some
              (.valid (restored_doc demoOld "20240101_120000_旧版.json" "2024-06-01"))
            snapshots := some ([("20240101_120000_旧版.json", .valid demoOld)]
              ++ [(snapshot_name "20240601_090000" "恢复前备份", .valid demoSpec)])
            exports := true } :=
  restore_snapshot_spec.1 demoFS "p1" "20240101_120000_旧版.json" "2024-06-01"
    "20240601_090000"
    { spec_file := some (.valid demoSpec)
      snapshots := some [("20240101_120000_旧版.json", .valid demoOld)]
      exports := true }
    [("20240101_120000_旧版.json", .valid demoOld)] (.valid demoSpec) demoOld
    (by decide) (by decide) (by decide) (by decide) (by decide) (by decide)

/-- Counterexample for C7 as literally claimed: the restore succeeds
on `demoFS`, but the resulting live document is NOT "snapshot
content plus exactly one appended change-history entry"
(`claim_restored_doc`) — it additionally carries `lastUpdated`
stamped to the restore date (the snapshot's `lastUpdated` was
`2023-12-31`, the result's is `2024-06-01`). -/
theorem restore_snapshot_claim_counterexample :
    (restore_snapshot "p1" "20240101_120000_旧版.json" "2024-06-01"
        "20240601_090000" demoFS).1 =
      .ok (restored_doc demoOld "20240101_120000_旧版.json" "2024-06-01")
    ∧ restored_doc demoOld "20240101_120000_旧版.json" "2024-06-01" ≠
        claim_restored_doc demoOld "20240101_120000_旧版.json" "2024-06-01" := by
  refine ⟨rfl, by decide⟩

end Clario

